import Mathlib

/-!
Verification of the AgenticAI weather MCP bridge.

The repository exposes a third-party weather HTTP API as callable tools.
The tool handlers live in src/mcp/bot_server.py and src/mcp/mcp_server.py;
the client-side tool adapter lives in src/mcp/client.py.  This file embeds
the handler code shallowly: JSON values are an inductive type, Python
dictionary indexing and iteration are explicit functions that may raise,
raised exceptions are an Except monad, and the HTTP collaborator
(httpx GET + raise_for_status + .json()) is a function parameter from the
request URL and query parameters to a JSON body or a raised error.
-/

namespace AgenticAI

/-- JSON-like values exchanged with the weather API and produced by the
handlers. -/
inductive Json where
  | null : Json
  | bool : Bool → Json
  | num : Int → Json
  | str : String → Json
  | arr : List Json → Json
  | obj : List (String × Json) → Json

/-- Entries of a Python dict with string keys, in insertion order. -/
abbrev Dict := List (String × Json)

/-- Python exceptions that the handler code can raise. -/
inductive PyErr where
  | keyError (key : String)
  | typeError (msg : String)
  | httpError (msg : String)
  | attributeError (msg : String)
  | other (msg : String)

/-- Python str() of an exception: KeyError prints the quoted key, the rest
print their message. -/
def PyErr.toStr : PyErr → String
  | .keyError k => "\x27" ++ k ++ "\x27"
  | .typeError m => m
  | .httpError m => m
  | .attributeError m => m
  | .other m => m

/-- Lookup of a key in dict entries (first match; keys are unique in dicts
built by the handlers). -/
def dictGet : Dict → String → Option Json
  | [], _ => none
  | (k, v) :: rest, key => if k = key then some v else dictGet rest key

/-- Python `key in d` for a dict. -/
def dictHasKey (d : Dict) (k : String) : Bool :=
  (dictGet d k).isSome

/-- Replace the value at a key, keeping the position of every entry. -/
def overwrite : Dict → String → Json → Dict
  | [], _, _ => []
  | (a, b) :: rest, k, v =>
    if a = k then (k, v) :: overwrite rest k v
    else (a, b) :: overwrite rest k v

/-- Python `d[k] = v`: overwrite in place when the key is present, append
otherwise. -/
def dictSet (d : Dict) (k : String) (v : Json) : Dict :=
  if dictHasKey d k then overwrite d k v
  else d ++ [(k, v)]

/-- Python `j[k]` for a string key: the entry of a dict, KeyError when the
dict lacks the key, TypeError when the value is not a dict. -/
def pyIndex (j : Json) (k : String) : Except PyErr Json :=
  match j with
  | .obj fields =>
    match dictGet fields k with
    | some v => .ok v
    | none => .error (.keyError k)
  | .str _ => .error (.typeError "string indices must be integers")
  | .arr _ => .error (.typeError "list indices must be integers or slices, not str")
  | _ => .error (.typeError "object is not subscriptable")

/-- Python `j.get(k, default)`: dicts have the method, other values raise
AttributeError. -/
def pyGetD (j : Json) (k : String) (default : Json) : Except PyErr Json :=
  match j with
  | .obj fields => .ok ((dictGet fields k).getD default)
  | _ => .error (.attributeError "object has no attribute \x27get\x27")

/-- Python `len(j)`. -/
def pyLen (j : Json) : Except PyErr Nat :=
  match j with
  | .arr xs => .ok xs.length
  | .obj fields => .ok fields.length
  | .str s => .ok s.length
  | _ => .error (.typeError "object has no len()")

/-- Python `for x in j`: list elements, dict keys, string characters. -/
def pyIterList (j : Json) : Except PyErr (List Json) :=
  match j with
  | .arr xs => .ok xs
  | .obj fields => .ok (fields.map (fun p => Json.str p.1))
  | .str s => .ok (s.data.map (fun c => Json.str (String.mk [c])))
  | _ => .error (.typeError "object is not iterable")

/-- Does `pat` occur as a substring of `s` (pat nonempty)? -/
def strIncludes (s pat : String) : Bool :=
  (s.splitOn pat).length != 1

/-- Python `k in j` (membership test): key of a dict, element of a list,
substring of a string. -/
def pyContains (j : Json) (k : String) : Except PyErr Bool :=
  match j with
  | .obj fields => .ok (dictHasKey fields k)
  | .arr xs => .ok (xs.any (fun x => match x with | .str s => s = k | _ => false))
  | .str s => .ok (strIncludes s k)
  | _ => .error (.typeError "argument is not iterable")

mutual
/-- Python repr of a JSON-like value. -/
def pyRepr : Json → String
  | .null => "None"
  | .bool b => if b then "True" else "False"
  | .num n => toString n
  | .str s => "\x27" ++ s ++ "\x27"
  | .arr xs => "[" ++ pyReprSep xs ++ "]"
  | .obj fs => "\x7b" ++ pyReprFields fs ++ "\x7d"

/-- Comma-separated reprs of list elements. -/
def pyReprSep : List Json → String
  | [] => ""
  | [x] => pyRepr x
  | x :: xs => pyRepr x ++ ", " ++ pyReprSep xs

/-- Comma-separated reprs of dict entries. -/
def pyReprFields : List (String × Json) → String
  | [] => ""
  | [(k, v)] => "\x27" ++ k ++ "\x27: " ++ pyRepr v
  | (k, v) :: fs => "\x27" ++ k ++ "\x27: " ++ pyRepr v ++ ", " ++ pyReprFields fs
end

/-- Python str() of a value, as interpolated by an f-string. -/
def pyStr : Json → String
  | .null => "None"
  | .bool b => if b then "True" else "False"
  | .num n => toString n
  | .str s => s
  | .arr xs => "[" ++ pyReprSep xs ++ "]"
  | .obj fs => "\x7b" ++ pyReprFields fs ++ "\x7d"

/-- The field of a result dictionary, `none` when the result is not a dict
or lacks the key. -/
def Json.field (j : Json) (k : String) : Option Json :=
  match j with
  | .obj fields => dictGet fields k
  | _ => none

/-- Is the value a dict? -/
def Json.isObj : Json → Bool
  | .obj _ => true
  | _ => false

/-- The HTTP collaborator: httpx `client.get(url, params)` followed by
`raise_for_status()` and `.json()`, abstracted as a function from the URL
and query parameters to the decoded JSON body or a raised error. -/
abbrev Fetch := String → Dict → Except PyErr Json

/-- The mapping of Python sequential exception-raising statements: left to
right, first raise wins (the Except monad). -/
def mapME (f : Json → Except PyErr Json) : List Json → Except PyErr (List Json)
  | [] => .ok []
  | x :: xs => do
    let y ← f x
    let ys ← mapME f xs
    pure (y :: ys)

/-- `WeatherTools` of bot_server.py and mcp_server.py: the api_key and the
fixed base_url set by `__init__`. -/
structure WeatherTools where
  api_key : String
  base_url : String

/-- `WeatherTools.__init__(api_key)`. -/
def WeatherTools.init (api_key : String) : WeatherTools :=
  { api_key := api_key, base_url := "http://api.weatherapi.com/v1" }

/-- `WeatherTools._make_request(endpoint, params)`: inserts the API key into
the caller-supplied params dict (a mutation the caller observes), builds the
URL and performs the GET.  First component: the response (or raised error,
re-raised unchanged by both except clauses); second component: the params
dict as the caller sees it afterwards. -/
def WeatherTools._make_request (wt : WeatherTools) (fetch : Fetch)
    (endpoint : String) (params : Dict) : Except PyErr Json × Dict :=
  let params2 := dictSet params "key" (.str wt.api_key)
  let url := wt.base_url ++ "/" ++ endpoint
  (fetch url params2, params2)

namespace BotServer

/-- The try-block of `get_current_weather` in src/mcp/bot_server.py
(lines 58-93): request current.json with aqi=yes, then index the nested
response dicts in source order and build the result dict; an optional
air_quality entry is added when the response has one. -/
def get_current_weatherBody (fetch : Fetch) (wt : WeatherTools)
    (location : String) : Except PyErr Json := do
  let data ← (wt._make_request fetch "current.json"
      [("q", .str location), ("aqi", .str "yes")]).1
  let current ← pyIndex data "current"
  let location_info ← pyIndex data "location"
  let nm ← pyIndex location_info "name"
  let rg ← pyIndex location_info "region"
  let ct ← pyIndex location_info "country"
  let temp_c ← pyIndex current "temp_c"
  let temp_f ← pyIndex current "temp_f"
  let feelslike_c ← pyIndex current "feelslike_c"
  let feelslike_f ← pyIndex current "feelslike_f"
  let condition ← pyIndex current "condition"
  let condition_text ← pyIndex condition "text"
  let humidity ← pyIndex current "humidity"
  let wind_kph ← pyIndex current "wind_kph"
  let wind_mph ← pyIndex current "wind_mph"
  let wind_dir ← pyIndex current "wind_dir"
  let pressure_mb ← pyIndex current "pressure_mb"
  let vis_km ← pyIndex current "vis_km"
  let vis_miles ← pyIndex current "vis_miles"
  let uv ← pyIndex current "uv"
  let precip_mm ← pyIndex current "precip_mm"
  let last_updated ← pyIndex current "last_updated"
  let result : Dict := [
    ("location", .str (pyStr nm ++ ", " ++ pyStr rg ++ ", " ++ pyStr ct)),
    ("temperature_c", temp_c),
    ("temperature_f", temp_f),
    ("feels_like_c", feelslike_c),
    ("feels_like_f", feelslike_f),
    ("condition", condition_text),
    ("humidity", humidity),
    ("wind_kph", wind_kph),
    ("wind_mph", wind_mph),
    ("wind_dir", wind_dir),
    ("pressure_mb", pressure_mb),
    ("visibility_km", vis_km),
    ("visibility_miles", vis_miles),
    ("uv_index", uv),
    ("precipitation_mm", precip_mm),
    ("last_updated", last_updated)]
  let hasAq ← pyContains data "air_quality"
  let result ←
    cond hasAq
      (do
        let aq ← pyIndex data "air_quality"
        pure (dictSet result "air_quality" aq))
      (pure result)
  pure (Json.obj result)

/-- `get_current_weather` tool of bot_server.py (lines 48-98): the try-block,
with any raised exception caught and turned into an error dict. -/
def get_current_weather (fetch : Fetch) (wt : WeatherTools)
    (location : String) : Json :=
  match get_current_weatherBody fetch wt location with
  | .ok r => r
  | .error e =>
    .obj [("error", .str ("Error fetching current weather: " ++ e.toStr))]

/-- One iteration of the forecast loop in `get_weather_forecast` of
bot_server.py (lines 133-154): index the day fields in source order. -/
def forecastDayEntry (day_data : Json) : Except PyErr Json := do
  let day_info ← pyIndex day_data "day"
  let date ← pyIndex day_data "date"
  let maxtemp_c ← pyIndex day_info "maxtemp_c"
  let maxtemp_f ← pyIndex day_info "maxtemp_f"
  let mintemp_c ← pyIndex day_info "mintemp_c"
  let mintemp_f ← pyIndex day_info "mintemp_f"
  let avgtemp_c ← pyIndex day_info "avgtemp_c"
  let avgtemp_f ← pyIndex day_info "avgtemp_f"
  let condition ← pyIndex day_info "condition"
  let condition_text ← pyIndex condition "text"
  let chance_of_rain ← pyIndex day_info "daily_chance_of_rain"
  let chance_of_snow ← pyIndex day_info "daily_chance_of_snow"
  let avghumidity ← pyIndex day_info "avghumidity"
  let maxwind_kph ← pyIndex day_info "maxwind_kph"
  let maxwind_mph ← pyIndex day_info "maxwind_mph"
  let totalprecip_mm ← pyIndex day_info "totalprecip_mm"
  let avgvis_km ← pyIndex day_info "avgvis_km"
  let avgvis_miles ← pyIndex day_info "avgvis_miles"
  let uv ← pyIndex day_info "uv"
  pure (.obj [
    ("date", date),
    ("max_temp_c", maxtemp_c),
    ("max_temp_f", maxtemp_f),
    ("min_temp_c", mintemp_c),
    ("min_temp_f", mintemp_f),
    ("avg_temp_c", avgtemp_c),
    ("avg_temp_f", avgtemp_f),
    ("condition", condition_text),
    ("chance_of_rain", chance_of_rain),
    ("chance_of_snow", chance_of_snow),
    ("avg_humidity", avghumidity),
    ("max_wind_kph", maxwind_kph),
    ("max_wind_mph", maxwind_mph),
    ("total_precip_mm", totalprecip_mm),
    ("avg_visibility_km", avgvis_km),
    ("avg_visibility_miles", avgvis_miles),
    ("uv_index", uv)])

/-- The try-block of `get_weather_forecast` in bot_server.py (lines 111-157):
clamp days to 1..10, request forecast.json, then map the response. -/
def get_weather_forecastBody (fetch : Fetch) (wt : WeatherTools)
    (location : String) (days0 : Int) : Except PyErr Json := do
  let days : Int := max 1 (min 10 days0)
  let data ← (wt._make_request fetch "forecast.json"
      [("q", .str location), ("days", .num days),
       ("aqi", .str "no"), ("alerts", .str "no")]).1
  let location_info ← pyIndex data "location"
  let forecast ← pyIndex data "forecast"
  let forecast_days ← pyIndex forecast "forecastday"
  let nm ← pyIndex location_info "name"
  let rg ← pyIndex location_info "region"
  let ct ← pyIndex location_info "country"
  let items ← pyIterList forecast_days
  let flist ← mapME forecastDayEntry items
  pure (.obj [
    ("location", .str (pyStr nm ++ ", " ++ pyStr rg ++ ", " ++ pyStr ct)),
    ("forecast_days", .num days),
    ("forecast", .arr flist)])

/-- `get_weather_forecast` tool of bot_server.py (lines 100-162). -/
def get_weather_forecast (fetch : Fetch) (wt : WeatherTools)
    (location : String) (days : Int) : Json :=
  match get_weather_forecastBody fetch wt location days with
  | .ok r => r
  | .error e =>
    .obj [("error", .str ("Error fetching forecast: " ++ e.toStr))]

/-- One iteration of the alerts loop in `get_weather_alerts` of
bot_server.py (lines 237-253). -/
def alertEntry (alert : Json) : Except PyErr Json := do
  let headline ← pyIndex alert "headline"
  let msgtype ← pyIndex alert "msgtype"
  let severity ← pyIndex alert "severity"
  let urgency ← pyIndex alert "urgency"
  let areas ← pyIndex alert "areas"
  let category ← pyIndex alert "category"
  let certainty ← pyIndex alert "certainty"
  let event ← pyIndex alert "event"
  let note ← pyIndex alert "note"
  let effective ← pyIndex alert "effective"
  let expires ← pyIndex alert "expires"
  let desc ← pyIndex alert "desc"
  let instruction ← pyIndex alert "instruction"
  pure (.obj [
    ("headline", headline),
    ("msgtype", msgtype),
    ("severity", severity),
    ("urgency", urgency),
    ("areas", areas),
    ("category", category),
    ("certainty", certainty),
    ("event", event),
    ("note", note),
    ("effective", effective),
    ("expires", expires),
    ("desc", desc),
    ("instruction", instruction)])

/-- The try-block of `get_weather_alerts` in bot_server.py (lines 218-256):
request forecast.json with alerts=yes, read the alert list with
`.get` defaults, count it and map it. -/
def get_weather_alertsBody (fetch : Fetch) (wt : WeatherTools)
    (location : String) : Except PyErr Json := do
  let data ← (wt._make_request fetch "forecast.json"
      [("q", .str location), ("days", .num 1),
       ("aqi", .str "no"), ("alerts", .str "yes")]).1
  let location_info ← pyIndex data "location"
  let alertsOuter ← pyGetD data "alerts" (.obj [])
  let alerts ← pyGetD alertsOuter "alert" (.arr [])
  let nm ← pyIndex location_info "name"
  let rg ← pyIndex location_info "region"
  let ct ← pyIndex location_info "country"
  let n ← pyLen alerts
  let items ← pyIterList alerts
  let alist ← mapME alertEntry items
  pure (.obj [
    ("location", .str (pyStr nm ++ ", " ++ pyStr rg ++ ", " ++ pyStr ct)),
    ("alerts_count", .num (n : Int)),
    ("alerts", .arr alist)])

/-- `get_weather_alerts` tool of bot_server.py (lines 208-261). -/
def get_weather_alerts (fetch : Fetch) (wt : WeatherTools)
    (location : String) : Json :=
  match get_weather_alertsBody fetch wt location with
  | .ok r => r
  | .error e =>
    .obj [("error", .str ("Error fetching weather alerts: " ++ e.toStr))]

end BotServer

namespace McpServer

/-- The try-block of `get_current_weather` in src/mcp/mcp_server.py
(lines 63-98): request current.json with aqi=yes, then index the nested
response dicts in source order and build the result dict; an optional
air_quality entry is added when the response has one. -/
def get_current_weatherBody (fetch : Fetch) (wt : WeatherTools)
    (location : String) : Except PyErr Json := do
  let data ← (wt._make_request fetch "current.json"
      [("q", .str location), ("aqi", .str "yes")]).1
  let current ← pyIndex data "current"
  let location_info ← pyIndex data "location"
  let nm ← pyIndex location_info "name"
  let rg ← pyIndex location_info "region"
  let ct ← pyIndex location_info "country"
  let temp_c ← pyIndex current "temp_c"
  let temp_f ← pyIndex current "temp_f"
  let feelslike_c ← pyIndex current "feelslike_c"
  let feelslike_f ← pyIndex current "feelslike_f"
  let condition ← pyIndex current "condition"
  let condition_text ← pyIndex condition "text"
  let humidity ← pyIndex current "humidity"
  let wind_kph ← pyIndex current "wind_kph"
  let wind_mph ← pyIndex current "wind_mph"
  let wind_dir ← pyIndex current "wind_dir"
  let pressure_mb ← pyIndex current "pressure_mb"
  let vis_km ← pyIndex current "vis_km"
  let vis_miles ← pyIndex current "vis_miles"
  let uv ← pyIndex current "uv"
  let precip_mm ← pyIndex current "precip_mm"
  let last_updated ← pyIndex current "last_updated"
  let result : Dict := [
    ("location", .str (pyStr nm ++ ", " ++ pyStr rg ++ ", " ++ pyStr ct)),
    ("temperature_c", temp_c),
    ("temperature_f", temp_f),
    ("feels_like_c", feelslike_c),
    ("feels_like_f", feelslike_f),
    ("condition", condition_text),
    ("humidity", humidity),
    ("wind_kph", wind_kph),
    ("wind_mph", wind_mph),
    ("wind_dir", wind_dir),
    ("pressure_mb", pressure_mb),
    ("visibility_km", vis_km),
    ("visibility_miles", vis_miles),
    ("uv_index", uv),
    ("precipitation_mm", precip_mm),
    ("last_updated", last_updated)]
  let hasAq ← pyContains data "air_quality"
  let result ←
    cond hasAq
      (do
        let aq ← pyIndex data "air_quality"
        pure (dictSet result "air_quality" aq))
      (pure result)
  pure (Json.obj result)

/-- `get_current_weather` tool of mcp_server.py (lines 52-103). -/
def get_current_weather (fetch : Fetch) (wt : WeatherTools)
    (location : String) : Json :=
  match get_current_weatherBody fetch wt location with
  | .ok r => r
  | .error e =>
    .obj [("error", .str ("Error fetching current weather: " ++ e.toStr))]

/-- The try-block of `get_forecast` in mcp_server.py (lines 109-115):
request forecast.json with the raw days argument and return the raw
response. -/
def get_forecastBody (fetch : Fetch) (wt : WeatherTools)
    (location : String) (days : Int) : Except PyErr Json :=
  (wt._make_request fetch "forecast.json"
      [("q", .str location), ("days", .num days)]).1

/-- `get_forecast` tool of mcp_server.py (lines 106-126): returns the raw
response, or an error dict holding str(e). -/
def get_forecast (fetch : Fetch) (wt : WeatherTools)
    (location : String) (days : Int) : Json :=
  match get_forecastBody fetch wt location days with
  | .ok r => r
  | .error e => .obj [("error", .str e.toStr)]

end McpServer

/-- An MCP tool object as the client sees it: name, description and the
inputSchema dict. -/
structure McpTool where
  name : String
  description : String
  inputSchema : Json

/-- `convert_to_llm_tool(tool)` of src/mcp/client.py (lines 58-71): the
tool schema dict sent to the completion API; indexing
`tool.inputSchema["properties"]` can raise. -/
def convert_to_llm_tool (tool : McpTool) : Except PyErr Json := do
  let props ← pyIndex tool.inputSchema "properties"
  pure (.obj [
    ("type", .str "function"),
    ("function", .obj [
      ("name", .str tool.name),
      ("description", .str tool.description),
      ("type", .str "function"),
      ("parameters", .obj [
        ("type", .str "object"),
        ("properties", props)])])])

/-! Helper lemmas about the embedding. -/

/-- Bind of a successful Except computation. -/
@[simp] theorem pyBind_ok {α β : Type} (a : α) (f : α → Except PyErr β) :
    (Except.ok a >>= f) = f a := rfl

/-- Bind of a raised exception: the raise propagates. -/
@[simp] theorem pyBind_error {α β : Type} (e : PyErr) (f : α → Except PyErr β) :
    ((Except.error e : Except PyErr α) >>= f) = .error e := rfl

/-- Inversion: a successful bind factors through a successful first step. -/
theorem pyBind_eq_ok {α β : Type} {x : Except PyErr α} {f : α → Except PyErr β}
    {b : β} (h : (x >>= f) = .ok b) : ∃ a, x = .ok a ∧ f a = .ok b := by
  cases x with
  | ok a => exact ⟨a, rfl, h⟩
  | error e => simp at h

/-- Indexing a dict that has the key returns its value. -/
theorem pyIndex_obj {fields : Dict} {k : String} {v : Json}
    (h : dictGet fields k = some v) : pyIndex (Json.obj fields) k = .ok v := by
  simp [pyIndex, h]

/-- Keys other than the overwritten one are untouched. -/
theorem dictGet_overwrite_ne (d : Dict) (k k2 : String) (v : Json)
    (hne : k2 ≠ k) : dictGet (overwrite d k v) k2 = dictGet d k2 := by
  induction d with
  | nil => rfl
  | cons p rest ih =>
    obtain ⟨a, b⟩ := p
    by_cases hak : a = k
    · subst hak
      simp [overwrite, dictGet, Ne.symm hne, ih]
    · simp [overwrite, hak, dictGet, ih]

/-- The overwritten key holds the new value when it was present. -/
theorem dictGet_overwrite_self (d : Dict) (k : String) (v : Json)
    (h : dictHasKey d k = true) : dictGet (overwrite d k v) k = some v := by
  induction d with
  | nil => simp [dictHasKey, dictGet] at h
  | cons p rest ih =>
    obtain ⟨a, b⟩ := p
    by_cases hak : a = k
    · subst hak
      simp [overwrite, dictGet]
    · have h2 : dictHasKey rest k = true := by
        simpa [dictHasKey, dictGet, hak] using h
      simp [overwrite, hak, dictGet, ih h2]

/-- Keys other than the appended one are untouched. -/
theorem dictGet_append_ne (d : Dict) (k k2 : String) (v : Json)
    (hne : k2 ≠ k) : dictGet (d ++ [(k, v)]) k2 = dictGet d k2 := by
  induction d with
  | nil => simp [dictGet, Ne.symm hne]
  | cons p rest ih =>
    obtain ⟨a, b⟩ := p
    simp [dictGet, ih]

/-- The appended key holds the appended value when it was absent. -/
theorem dictGet_append_self (d : Dict) (k : String) (v : Json)
    (h : dictHasKey d k = false) : dictGet (d ++ [(k, v)]) k = some v := by
  induction d with
  | nil => simp [dictGet]
  | cons p rest ih =>
    obtain ⟨a, b⟩ := p
    by_cases hak : a = k
    · subst hak
      simp [dictHasKey, dictGet] at h
    · have h2 : dictHasKey rest k = false := by
        simpa [dictHasKey, dictGet, hak] using h
      simp [dictGet, hak, ih h2]

/-- Keys other than the assigned one are untouched by Python dict
assignment. -/
theorem dictGet_dictSet_ne (d : Dict) (k k2 : String) (v : Json)
    (hne : k2 ≠ k) : dictGet (dictSet d k v) k2 = dictGet d k2 := by
  unfold dictSet
  by_cases hmem : dictHasKey d k
  · simp only [hmem, if_true]
    exact dictGet_overwrite_ne d k k2 v hne
  · simp only [hmem, Bool.false_eq_true, if_false]
    exact dictGet_append_ne d k k2 v hne

/-- The assigned key holds the assigned value after Python dict
assignment. -/
theorem dictGet_dictSet_self (d : Dict) (k : String) (v : Json) :
    dictGet (dictSet d k v) k = some v := by
  unfold dictSet
  by_cases hmem : dictHasKey d k
  · simp only [hmem, if_true]
    exact dictGet_overwrite_self d k v hmem
  · simp only [hmem, Bool.false_eq_true, if_false]
    exact dictGet_append_self d k v (by simpa using hmem)

/-- Assignment of a fresh key appends the entry, in order, after all
existing entries. -/
theorem dictSet_append (d : Dict) (k : String) (v : Json)
    (h : dictGet d k = none) : dictSet d k v = d ++ [(k, v)] := by
  unfold dictSet dictHasKey
  simp [h]

/-- A successful loop over a list produces one output per input. -/
theorem mapME_ok_length (f : Json → Except PyErr Json) :
    ∀ (xs ys : List Json), mapME f xs = .ok ys → ys.length = xs.length := by
  intro xs
  induction xs with
  | nil =>
    intro ys h
    simp [mapME] at h
    simp [← h]
  | cons x rest ih =>
    intro ys h
    unfold mapME at h
    obtain ⟨y, _, h⟩ := pyBind_eq_ok h
    obtain ⟨ys2, hys2, h⟩ := pyBind_eq_ok h
    have : (y :: ys2) = ys := by
      simpa [pure, Except.pure] using h
    subst this
    simp [ih ys2 hys2]

/-- Python len agrees with the number of loop iterations. -/
theorem pyIterList_length (j : Json) (n : Nat) (xs : List Json)
    (hn : pyLen j = .ok n) (hx : pyIterList j = .ok xs) : xs.length = n := by
  cases j with
  | null => simp [pyLen] at hn
  | bool b => simp [pyLen] at hn
  | num m => simp [pyLen] at hn
  | str s =>
    simp [pyLen] at hn
    simp [pyIterList] at hx
    subst hn
    rw [← hx, List.length_map]
    rfl
  | arr l =>
    simp [pyLen] at hn
    simp [pyIterList] at hx
    subst hn
    rw [← hx]
  | obj fs =>
    simp [pyLen] at hn
    simp [pyIterList] at hx
    subst hn
    rw [← hx, List.length_map]

/-! Concrete sample inputs used by the closed theorems below. -/

/-- Stub collaborator response for the New York scenario of the spec:
temp_c is 20 and the location block names New York, NY, USA; every field
the handler maps is present. -/
def nyData : Json := .obj [
  ("current", .obj [
    ("temp_c", .num 20),
    ("temp_f", .num 68),
    ("feelslike_c", .num 19),
    ("feelslike_f", .num 66),
    ("condition", .obj [("text", .str "Sunny")]),
    ("humidity", .num 50),
    ("wind_kph", .num 10),
    ("wind_mph", .num 6),
    ("wind_dir", .str "NW"),
    ("pressure_mb", .num 1015),
    ("vis_km", .num 10),
    ("vis_miles", .num 6),
    ("uv", .num 5),
    ("precip_mm", .num 0),
    ("last_updated", .str "2025-01-01 12:00")]),
  ("location", .obj [
    ("name", .str "New York"),
    ("region", .str "NY"),
    ("country", .str "USA")])]

/-- A stub collaborator that always answers with the New York payload. -/
def nyFetch : Fetch := fun _ _ => .ok nyData

/-- The WeatherTools instance the servers build (the API key of the
source). -/
def wtSample : WeatherTools := WeatherTools.init "53f63b9961eb49819af231815251306"

/-- A stub collaborator whose HTTP call raises. -/
def failFetch : Fetch := fun _ _ => .error (.httpError "connection refused")

/-- A stub collaborator response that lacks the expected nested key
`current`. -/
def noCurrentData : Json := .obj [("location", .obj [
  ("name", .str "Boston"), ("region", .str "MA"), ("country", .str "USA")])]

/-- A stub collaborator answering with the payload that lacks `current`. -/
def noCurrentFetch : Fetch := fun _ _ => .ok noCurrentData

/-- A stub collaborator response for the forecast handler: a full location
block and an empty forecastday list. -/
def forecastData : Json := .obj [
  ("location", .obj [("name", .str "Lagos"), ("region", .str "Lagos"),
    ("country", .str "Nigeria")]),
  ("forecast", .obj [("forecastday", .arr [])])]

/-- A stub collaborator answering with the forecast payload. -/
def forecastFetch : Fetch := fun _ _ => .ok forecastData

/-- A stub collaborator response with a full location block and no alerts
entry at all. -/
def alertsNoneData : Json := .obj [("location", .obj [
  ("name", .str "Paris"), ("region", .str "Ile de France"),
  ("country", .str "France")])]

/-- A stub collaborator answering with the alert-free payload. -/
def alertsNoneFetch : Fetch := fun _ _ => .ok alertsNoneData

/-- A stub collaborator response with a full location block and an alerts
object that lacks the alert entry. -/
def alertsEmptyObjData : Json := .obj [
  ("location", .obj [("name", .str "Austin"), ("region", .str "TX"),
    ("country", .str "USA")]),
  ("alerts", .obj [])]

/-- A stub collaborator answering with the empty-alerts-object payload. -/
def alertsEmptyObjFetch : Fetch := fun _ _ => .ok alertsEmptyObjData

/-- A stub collaborator response that contains a location object, but an
empty one (no name, region or country). -/
def locOnlyData : Json := .obj [("location", .obj [])]

/-- A stub collaborator answering with the bare-location payload. -/
def locOnlyFetch : Fetch := fun _ _ => .ok locOnlyData

/-- Does a handler result carry a structured error object whose code field
is the given string? -/
def errorCodeIs (r : Json) (code : String) : Bool :=
  match r.field "error" with
  | some (.obj efs) =>
    match dictGet efs "code" with
    | some (.str c) => c = code
    | _ => false
  | _ => false

/-! The claims. -/

/-- C1: for every invocation of get_current_weather whose collaborator call
succeeds with a response that contains all the fields the handler maps, the
handler returns exactly one result dict with the mapped weather fields and
no error key (and the handler of mcp_server.py returns the same value). -/
theorem c1_known_operation_success (fetch : Fetch) (wt : WeatherTools)
    (location : String) {fs cs ls conds : Dict}
    {nm rg ct tc tf flc flf tx hum wk wm wd pm vk vm uvv pr lu : Json}
    (hfetch : (wt._make_request fetch "current.json"
        [("q", .str location), ("aqi", .str "yes")]).1 = .ok (.obj fs))
    (hcur : dictGet fs "current" = some (.obj cs))
    (hloc : dictGet fs "location" = some (.obj ls))
    (hnm : dictGet ls "name" = some nm)
    (hrg : dictGet ls "region" = some rg)
    (hct : dictGet ls "country" = some ct)
    (htc : dictGet cs "temp_c" = some tc)
    (htf : dictGet cs "temp_f" = some tf)
    (hflc : dictGet cs "feelslike_c" = some flc)
    (hflf : dictGet cs "feelslike_f" = some flf)
    (hcd : dictGet cs "condition" = some (.obj conds))
    (htx : dictGet conds "text" = some tx)
    (hhum : dictGet cs "humidity" = some hum)
    (hwk : dictGet cs "wind_kph" = some wk)
    (hwm : dictGet cs "wind_mph" = some wm)
    (hwd : dictGet cs "wind_dir" = some wd)
    (hpm : dictGet cs "pressure_mb" = some pm)
    (hvk : dictGet cs "vis_km" = some vk)
    (hvm : dictGet cs "vis_miles" = some vm)
    (huv : dictGet cs "uv" = some uvv)
    (hpr : dictGet cs "precip_mm" = some pr)
    (hlu : dictGet cs "last_updated" = some lu) :
    (BotServer.get_current_weather fetch wt location).isObj = true ∧
    (BotServer.get_current_weather fetch wt location).field "error" = none ∧
    McpServer.get_current_weather fetch wt location
      = BotServer.get_current_weather fetch wt location ∧
    (BotServer.get_current_weather fetch wt location).field "location"
      = some (.str (pyStr nm ++ ", " ++ pyStr rg ++ ", " ++ pyStr ct)) ∧
    (BotServer.get_current_weather fetch wt location).field "temperature_c" = some tc ∧
    (BotServer.get_current_weather fetch wt location).field "temperature_f" = some tf ∧
    (BotServer.get_current_weather fetch wt location).field "feels_like_c" = some flc ∧
    (BotServer.get_current_weather fetch wt location).field "feels_like_f" = some flf ∧
    (BotServer.get_current_weather fetch wt location).field "condition" = some tx ∧
    (BotServer.get_current_weather fetch wt location).field "humidity" = some hum ∧
    (BotServer.get_current_weather fetch wt location).field "wind_kph" = some wk ∧
    (BotServer.get_current_weather fetch wt location).field "wind_mph" = some wm ∧
    (BotServer.get_current_weather fetch wt location).field "wind_dir" = some wd ∧
    (BotServer.get_current_weather fetch wt location).field "pressure_mb" = some pm ∧
    (BotServer.get_current_weather fetch wt location).field "visibility_km" = some vk ∧
    (BotServer.get_current_weather fetch wt location).field "visibility_miles" = some vm ∧
    (BotServer.get_current_weather fetch wt location).field "uv_index" = some uvv ∧
    (BotServer.get_current_weather fetch wt location).field "precipitation_mm" = some pr ∧
    (BotServer.get_current_weather fetch wt location).field "last_updated" = some lu := by
  cases haq : dictHasKey fs "air_quality" with
  | false =>
    have hcf : pyContains (Json.obj fs) "air_quality" = .ok false := by
      simp [pyContains, haq]
    have hb : BotServer.get_current_weatherBody fetch wt location = .ok (.obj
        [("location", .str (pyStr nm ++ ", " ++ pyStr rg ++ ", " ++ pyStr ct)),
         ("temperature_c", tc), ("temperature_f", tf), ("feels_like_c", flc),
         ("feels_like_f", flf), ("condition", tx), ("humidity", hum),
         ("wind_kph", wk), ("wind_mph", wm), ("wind_dir", wd),
         ("pressure_mb", pm), ("visibility_km", vk), ("visibility_miles", vm),
         ("uv_index", uvv), ("precipitation_mm", pr), ("last_updated", lu)]) := by
      unfold BotServer.get_current_weatherBody
      rw [hfetch, pyBind_ok, pyIndex_obj hcur, pyBind_ok, pyIndex_obj hloc,
          pyBind_ok, pyIndex_obj hnm, pyBind_ok, pyIndex_obj hrg, pyBind_ok,
          pyIndex_obj hct, pyBind_ok, pyIndex_obj htc, pyBind_ok,
          pyIndex_obj htf, pyBind_ok, pyIndex_obj hflc, pyBind_ok,
          pyIndex_obj hflf, pyBind_ok, pyIndex_obj hcd, pyBind_ok,
          pyIndex_obj htx, pyBind_ok, pyIndex_obj hhum, pyBind_ok,
          pyIndex_obj hwk, pyBind_ok, pyIndex_obj hwm, pyBind_ok,
          pyIndex_obj hwd, pyBind_ok, pyIndex_obj hpm, pyBind_ok,
          pyIndex_obj hvk, pyBind_ok, pyIndex_obj hvm, pyBind_ok,
          pyIndex_obj huv, pyBind_ok, pyIndex_obj hpr, pyBind_ok,
          pyIndex_obj hlu, pyBind_ok, hcf]
      rfl
    have hw : BotServer.get_current_weather fetch wt location = .obj
        [("location", .str (pyStr nm ++ ", " ++ pyStr rg ++ ", " ++ pyStr ct)),
         ("temperature_c", tc), ("temperature_f", tf), ("feels_like_c", flc),
         ("feels_like_f", flf), ("condition", tx), ("humidity", hum),
         ("wind_kph", wk), ("wind_mph", wm), ("wind_dir", wd),
         ("pressure_mb", pm), ("visibility_km", vk), ("visibility_miles", vm),
         ("uv_index", uvv), ("precipitation_mm", pr), ("last_updated", lu)] := by
      unfold BotServer.get_current_weather
      rw [hb]
    have hmcp : McpServer.get_current_weather fetch wt location
        = BotServer.get_current_weather fetch wt location := rfl
    rw [hw] at hmcp ⊢
    exact ⟨rfl, rfl, hmcp, rfl, rfl, rfl, rfl, rfl, rfl, rfl, rfl, rfl, rfl,
      rfl, rfl, rfl, rfl, rfl, rfl⟩
  | true =>
    obtain ⟨aq, haqv⟩ := Option.isSome_iff_exists.mp
      (show (dictGet fs "air_quality").isSome = true by
        simpa [dictHasKey] using haq)
    have hctn : pyContains (Json.obj fs) "air_quality" = .ok true := by
      simp [pyContains, haq]
    have hb : BotServer.get_current_weatherBody fetch wt location = .ok (.obj
        ([("location", .str (pyStr nm ++ ", " ++ pyStr rg ++ ", " ++ pyStr ct)),
         ("temperature_c", tc), ("temperature_f", tf), ("feels_like_c", flc),
         ("feels_like_f", flf), ("condition", tx), ("humidity", hum),
         ("wind_kph", wk), ("wind_mph", wm), ("wind_dir", wd),
         ("pressure_mb", pm), ("visibility_km", vk), ("visibility_miles", vm),
         ("uv_index", uvv), ("precipitation_mm", pr), ("last_updated", lu)]
          ++ [("air_quality", aq)])) := by
      unfold BotServer.get_current_weatherBody
      rw [hfetch, pyBind_ok, pyIndex_obj hcur, pyBind_ok, pyIndex_obj hloc,
          pyBind_ok, pyIndex_obj hnm, pyBind_ok, pyIndex_obj hrg, pyBind_ok,
          pyIndex_obj hct, pyBind_ok, pyIndex_obj htc, pyBind_ok,
          pyIndex_obj htf, pyBind_ok, pyIndex_obj hflc, pyBind_ok,
          pyIndex_obj hflf, pyBind_ok, pyIndex_obj hcd, pyBind_ok,
          pyIndex_obj htx, pyBind_ok, pyIndex_obj hhum, pyBind_ok,
          pyIndex_obj hwk, pyBind_ok, pyIndex_obj hwm, pyBind_ok,
          pyIndex_obj hwd, pyBind_ok, pyIndex_obj hpm, pyBind_ok,
          pyIndex_obj hvk, pyBind_ok, pyIndex_obj hvm, pyBind_ok,
          pyIndex_obj huv, pyBind_ok, pyIndex_obj hpr, pyBind_ok,
          pyIndex_obj hlu, pyBind_ok, hctn, pyIndex_obj haqv]
      rfl
    have hw : BotServer.get_current_weather fetch wt location = .obj
        ([("location", .str (pyStr nm ++ ", " ++ pyStr rg ++ ", " ++ pyStr ct)),
         ("temperature_c", tc), ("temperature_f", tf), ("feels_like_c", flc),
         ("feels_like_f", flf), ("condition", tx), ("humidity", hum),
         ("wind_kph", wk), ("wind_mph", wm), ("wind_dir", wd),
         ("pressure_mb", pm), ("visibility_km", vk), ("visibility_miles", vm),
         ("uv_index", uvv), ("precipitation_mm", pr), ("last_updated", lu)]
          ++ [("air_quality", aq)]) := by
      unfold BotServer.get_current_weather
      rw [hb]
    have hmcp : McpServer.get_current_weather fetch wt location
        = BotServer.get_current_weather fetch wt location := rfl
    rw [hw] at hmcp ⊢
    exact ⟨rfl, rfl, hmcp, rfl, rfl, rfl, rfl, rfl, rfl, rfl, rfl, rfl, rfl,
      rfl, rfl, rfl, rfl, rfl, rfl⟩

/-- C1 witness: the success shape at the concrete New York payload. -/
theorem c1_known_operation_success_witness :
    (BotServer.get_current_weather nyFetch wtSample "New York").field "error"
      = none ∧
    (BotServer.get_current_weather nyFetch wtSample "New York").field
      "temperature_c" = some (.num 20) := by
  obtain ⟨h1, h2, h3, h4, h5, hrest⟩ := c1_known_operation_success nyFetch
    wtSample "New York" rfl rfl rfl rfl rfl rfl rfl rfl rfl rfl rfl rfl rfl
    rfl rfl rfl rfl rfl rfl rfl rfl rfl
  exact ⟨h2, h5⟩

/-- C2: invoking get_current_weather with location "New York" against a
stub collaborator returning current.temp_c = 20 and location
name "New York", region "NY", country "USA" yields a result whose
location field is "New York, NY, USA" and whose temperature_c field
is 20. -/
theorem c2_new_york_scenario :
    (BotServer.get_current_weather nyFetch wtSample "New York").field "location"
      = some (.str "New York, NY, USA") ∧
    (BotServer.get_current_weather nyFetch wtSample "New York").field "temperature_c"
      = some (.num 20) := ⟨rfl, rfl⟩

/-- C6: the get_current_weather handler of bot_server.py and the
get_current_weather handler of mcp_server.py are extensionally equal: for
every collaborator behaviour, WeatherTools instance and location argument
they produce the identical result value. -/
theorem c6_servers_extensionally_equal :
    ∀ (fetch : Fetch) (wt : WeatherTools) (location : String),
      BotServer.get_current_weather fetch wt location
        = McpServer.get_current_weather fetch wt location :=
  fun _ _ _ => rfl

/-- C3 counterexample: when the collaborator HTTP call raises, the
invocation response is a dict whose error entry is a plain string; it does
not carry a structured error object with code "HandlerError". -/
theorem c3_no_handler_error_code :
    errorCodeIs (BotServer.get_current_weather failFetch wtSample "New York")
      "HandlerError" = false ∧
    (BotServer.get_current_weather failFetch wtSample "New York").field "error"
      = some (.str "Error fetching current weather: connection refused") :=
  ⟨rfl, rfl⟩

/-- C3 (amended): when the collaborator HTTP call raises an error e, both
get_current_weather handlers return a dict whose error entry is the string
"Error fetching current weather: " followed by str(e); the message contains
the underlying cause text, but there is no code field. -/
theorem c3_http_failure_error_value (fetch : Fetch) (wt : WeatherTools)
    (location : String) (e : PyErr)
    (h : (wt._make_request fetch "current.json"
        [("q", .str location), ("aqi", .str "yes")]).1 = .error e) :
    BotServer.get_current_weather fetch wt location
      = .obj [("error", .str ("Error fetching current weather: " ++ e.toStr))] ∧
    McpServer.get_current_weather fetch wt location
      = .obj [("error", .str ("Error fetching current weather: " ++ e.toStr))] ∧
    (∃ pre, "Error fetching current weather: " ++ e.toStr = pre ++ e.toStr) := by
  refine ⟨?_, ?_, "Error fetching current weather: ", rfl⟩
  · simp [BotServer.get_current_weather, BotServer.get_current_weatherBody, h]
  · simp [McpServer.get_current_weather, McpServer.get_current_weatherBody, h]

/-- C3 witness: the amended statement at a concrete failing collaborator. -/
theorem c3_http_failure_error_value_witness :
    BotServer.get_current_weather failFetch wtSample "New York"
      = .obj [("error", .str ("Error fetching current weather: "
          ++ PyErr.toStr (.httpError "connection refused")))] :=
  (c3_http_failure_error_value failFetch wtSample "New York"
    (.httpError "connection refused") rfl).1

/-- C4: whenever the body of a handler raises (collaborator failure,
missing field, any other fault), the handler returns a dict carrying an
error entry instead of propagating the exception; shown for
get_current_weather and get_weather_forecast and get_weather_alerts of
bot_server.py and get_current_weather and get_forecast of mcp_server.py. -/
theorem c4_no_exception_escapes (fetch : Fetch) (wt : WeatherTools)
    (location : String) (days : Int) (e : PyErr) :
    (BotServer.get_current_weatherBody fetch wt location = .error e →
      (BotServer.get_current_weather fetch wt location).field "error"
        = some (.str ("Error fetching current weather: " ++ e.toStr))) ∧
    (BotServer.get_weather_forecastBody fetch wt location days = .error e →
      (BotServer.get_weather_forecast fetch wt location days).field "error"
        = some (.str ("Error fetching forecast: " ++ e.toStr))) ∧
    (BotServer.get_weather_alertsBody fetch wt location = .error e →
      (BotServer.get_weather_alerts fetch wt location).field "error"
        = some (.str ("Error fetching weather alerts: " ++ e.toStr))) ∧
    (McpServer.get_current_weatherBody fetch wt location = .error e →
      (McpServer.get_current_weather fetch wt location).field "error"
        = some (.str ("Error fetching current weather: " ++ e.toStr))) ∧
    (McpServer.get_forecastBody fetch wt location days = .error e →
      (McpServer.get_forecast fetch wt location days).field "error"
        = some (.str e.toStr)) := by
  refine ⟨fun h => ?_, fun h => ?_, fun h => ?_, fun h => ?_, fun h => ?_⟩
  · simp [BotServer.get_current_weather, h, Json.field, dictGet]
  · simp [BotServer.get_weather_forecast, h, Json.field, dictGet]
  · simp [BotServer.get_weather_alerts, h, Json.field, dictGet]
  · simp [McpServer.get_current_weather, h, Json.field, dictGet]
  · simp [McpServer.get_forecast, h, Json.field, dictGet]

/-- C4 witness: all five handlers at a concrete raising collaborator. -/
theorem c4_no_exception_escapes_witness :
    (BotServer.get_current_weather failFetch wtSample "Paris").field "error"
      = some (.str ("Error fetching current weather: "
          ++ PyErr.toStr (.httpError "connection refused"))) ∧
    (BotServer.get_weather_forecast failFetch wtSample "Paris" 3).field "error"
      = some (.str ("Error fetching forecast: "
          ++ PyErr.toStr (.httpError "connection refused"))) ∧
    (BotServer.get_weather_alerts failFetch wtSample "Paris").field "error"
      = some (.str ("Error fetching weather alerts: "
          ++ PyErr.toStr (.httpError "connection refused"))) ∧
    (McpServer.get_current_weather failFetch wtSample "Paris").field "error"
      = some (.str ("Error fetching current weather: "
          ++ PyErr.toStr (.httpError "connection refused"))) ∧
    (McpServer.get_forecast failFetch wtSample "Paris" 3).field "error"
      = some (.str (PyErr.toStr (.httpError "connection refused"))) := by
  obtain ⟨h1, h2, h3, h4, h5⟩ := c4_no_exception_escapes failFetch wtSample
    "Paris" 3 (.httpError "connection refused")
  exact ⟨h1 rfl, h2 rfl, h3 rfl, h4 rfl, h5 rfl⟩

/-- C5 counterexample: on a response that lacks the nested key current, the
direct indexing raises KeyError inside the try-block, but the KeyError does
not escape the handler: the generic except clause catches it and the
handler returns an error dict naming the key. -/
theorem c5_keyerror_is_caught :
    BotServer.get_current_weatherBody noCurrentFetch wtSample "Boston"
      = .error (.keyError "current") ∧
    BotServer.get_current_weather noCurrentFetch wtSample "Boston"
      = .obj [("error", .str ("Error fetching current weather: "
          ++ PyErr.toStr (.keyError "current")))] := ⟨rfl, rfl⟩

/-- C5 (amended): for every collaborator response that is a dict without
the key current, the direct indexing raises KeyError "current" inside the
handler body, and the handler catches it, returning an error dict whose
message contains the stringified missing key — no fault escapes the
handler. -/
theorem c5_missing_key_error_dict (fetch : Fetch) (wt : WeatherTools)
    (location : String) {fs : Dict}
    (hfetch : (wt._make_request fetch "current.json"
        [("q", .str location), ("aqi", .str "yes")]).1 = .ok (.obj fs))
    (hmiss : dictGet fs "current" = none) :
    BotServer.get_current_weatherBody fetch wt location
      = .error (.keyError "current") ∧
    BotServer.get_current_weather fetch wt location
      = .obj [("error", .str ("Error fetching current weather: "
          ++ PyErr.toStr (.keyError "current")))] := by
  have hidx : pyIndex (Json.obj fs) "current" = .error (.keyError "current") := by
    simp [pyIndex, hmiss]
  have hb : BotServer.get_current_weatherBody fetch wt location
      = .error (.keyError "current") := by
    unfold BotServer.get_current_weatherBody
    rw [hfetch, pyBind_ok, hidx]
    rfl
  exact ⟨hb, by simp [BotServer.get_current_weather, hb, PyErr.toStr]⟩

/-- C5 witness: the amended statement at the concrete payload that lacks
the key current. -/
theorem c5_missing_key_error_dict_witness :
    BotServer.get_current_weatherBody noCurrentFetch wtSample "Boston"
      = .error (.keyError "current") ∧
    BotServer.get_current_weather noCurrentFetch wtSample "Boston"
      = .obj [("error", .str ("Error fetching current weather: "
          ++ PyErr.toStr (.keyError "current")))] :=
  c5_missing_key_error_dict noCurrentFetch wtSample "Boston" rfl rfl

/-- C10: _make_request changes the caller-visible params dict only at the
key entry, which it binds to the instance api_key; every other entry reads
the same as before, and when the key entry was absent the dict is exactly
the old entries followed by the new key entry. -/
theorem c10_make_request_frame (wt : WeatherTools) (fetch : Fetch)
    (endpoint : String) (params : Dict) :
    (∀ k, k ≠ "key" →
      dictGet (wt._make_request fetch endpoint params).2 k = dictGet params k) ∧
    dictGet (wt._make_request fetch endpoint params).2 "key"
      = some (.str wt.api_key) ∧
    (dictGet params "key" = none →
      (wt._make_request fetch endpoint params).2
        = params ++ [("key", .str wt.api_key)]) := by
  refine ⟨fun k hk => ?_, ?_, fun h => ?_⟩
  · exact dictGet_dictSet_ne params "key" k (.str wt.api_key) hk
  · exact dictGet_dictSet_self params "key" (.str wt.api_key)
  · exact dictSet_append params "key" (.str wt.api_key) h

/-- C10 witness: the frame condition at a concrete params dict. -/
theorem c10_make_request_frame_witness :
    dictGet (wtSample._make_request failFetch "current.json"
        [("q", Json.str "Paris")]).2 "q"
      = dictGet [("q", Json.str "Paris")] "q" ∧
    dictGet (wtSample._make_request failFetch "current.json"
        [("q", Json.str "Paris")]).2 "key"
      = some (.str wtSample.api_key) ∧
    (wtSample._make_request failFetch "current.json"
        [("q", Json.str "Paris")]).2
      = [("q", Json.str "Paris")] ++ [("key", .str wtSample.api_key)] := by
  obtain ⟨h1, h2, h3⟩ := c10_make_request_frame wtSample failFetch
    "current.json" [("q", Json.str "Paris")]
  exact ⟨h1 "q" (by decide), h2, h3 rfl⟩

/-- C8: get_weather_forecast behaves exactly as if called with days clamped
into 1..10 (so the collaborator request carries the clamped value), and on
success the forecast_days field of the result is the clamped value, not the
caller-supplied argument. -/
theorem c8_forecast_days_clamped (fetch : Fetch) (wt : WeatherTools)
    (location : String) (days : Int) :
    BotServer.get_weather_forecast fetch wt location days
      = BotServer.get_weather_forecast fetch wt location (max 1 (min 10 days)) ∧
    (∀ r, BotServer.get_weather_forecastBody fetch wt location days = .ok r →
      r.field "forecast_days" = some (.num (max 1 (min 10 days)))) := by
  constructor
  · have hidem : max 1 (min 10 (max 1 (min 10 days))) = max 1 (min 10 days) := by
      omega
    have hbody : BotServer.get_weather_forecastBody fetch wt location
        (max 1 (min 10 days))
        = BotServer.get_weather_forecastBody fetch wt location days := by
      unfold BotServer.get_weather_forecastBody
      rw [hidem]
    unfold BotServer.get_weather_forecast
    rw [hbody]
  · intro r h
    unfold BotServer.get_weather_forecastBody at h
    obtain ⟨data, hdata, h⟩ := pyBind_eq_ok h
    obtain ⟨location_info, hli, h⟩ := pyBind_eq_ok h
    obtain ⟨fc, hfc, h⟩ := pyBind_eq_ok h
    obtain ⟨fdays, hfd, h⟩ := pyBind_eq_ok h
    obtain ⟨nm, hnm, h⟩ := pyBind_eq_ok h
    obtain ⟨rg, hrg, h⟩ := pyBind_eq_ok h
    obtain ⟨ct, hct, h⟩ := pyBind_eq_ok h
    obtain ⟨items, hit, h⟩ := pyBind_eq_ok h
    obtain ⟨flist, hfl, h⟩ := pyBind_eq_ok h
    have hr : Json.obj
        [("location", .str (pyStr nm ++ ", " ++ pyStr rg ++ ", " ++ pyStr ct)),
         ("forecast_days", .num (max 1 (min 10 days))),
         ("forecast", .arr flist)] = r := by
      simpa [pure, Except.pure] using h
    rw [← hr]
    rfl

/-- C8 witness: calling with days = 15 is the same as calling with the
clamped 10, and the success result reports forecast_days = 10. -/
theorem c8_forecast_days_clamped_witness :
    BotServer.get_weather_forecast forecastFetch wtSample "Lagos" 15
      = BotServer.get_weather_forecast forecastFetch wtSample "Lagos"
          (max 1 (min 10 15)) ∧
    (Json.obj [("location", .str "Lagos, Lagos, Nigeria"),
      ("forecast_days", .num 10), ("forecast", .arr [])]).field "forecast_days"
      = some (.num (max 1 (min 10 (15 : Int)))) := by
  obtain ⟨h1, h2⟩ := c8_forecast_days_clamped forecastFetch wtSample "Lagos" 15
  exact ⟨h1, h2 _ rfl⟩

/-- C9 counterexample: a collaborator response containing a location object
(but an empty one) makes get_weather_alerts return an error dict with no
alerts_count field at all, so the claim does not hold for every response
containing a location object. -/
theorem c9_location_object_not_enough :
    (BotServer.get_weather_alerts locOnlyFetch wtSample "Paris").field
      "alerts_count" = none ∧
    BotServer.get_weather_alerts locOnlyFetch wtSample "Paris"
      = .obj [("error", .str ("Error fetching weather alerts: "
          ++ PyErr.toStr (.keyError "name")))] := ⟨rfl, rfl⟩

/-- C9 (amended): whenever get_weather_alerts succeeds, the alerts_count
field of the result equals the length of the alerts list of the result;
and for a response whose location object has name, region and country and
which either has no alerts key at all or has an alerts object without an
alert entry (the two .get defaults), the handler succeeds with
alerts_count = 0 and an empty alerts list rather than failing. -/
theorem c9_alerts_count_matches (fetch : Fetch) (wt : WeatherTools)
    (location : String) :
    (∀ r, BotServer.get_weather_alertsBody fetch wt location = .ok r →
      ∃ (n : Nat) (l : List Json),
        r.field "alerts_count" = some (.num (n : Int)) ∧
        r.field "alerts" = some (.arr l) ∧ l.length = n) ∧
    (∀ (fs ls : Dict) (nm rg ct : Json),
      (wt._make_request fetch "forecast.json"
        [("q", .str location), ("days", .num 1), ("aqi", .str "no"),
         ("alerts", .str "yes")]).1 = .ok (.obj fs) →
      dictGet fs "location" = some (.obj ls) →
      dictGet ls "name" = some nm →
      dictGet ls "region" = some rg →
      dictGet ls "country" = some ct →
      (dictGet fs "alerts" = none ∨
        ∃ as2 : Dict, dictGet fs "alerts" = some (.obj as2) ∧
          dictGet as2 "alert" = none) →
      BotServer.get_weather_alerts fetch wt location
        = .obj [("location",
            .str (pyStr nm ++ ", " ++ pyStr rg ++ ", " ++ pyStr ct)),
            ("alerts_count", .num 0), ("alerts", .arr [])]) := by
  constructor
  · intro r h
    unfold BotServer.get_weather_alertsBody at h
    obtain ⟨data, hdata, h⟩ := pyBind_eq_ok h
    obtain ⟨location_info, hli, h⟩ := pyBind_eq_ok h
    obtain ⟨alertsOuter, hao, h⟩ := pyBind_eq_ok h
    obtain ⟨alerts, hal, h⟩ := pyBind_eq_ok h
    obtain ⟨nm, hnm, h⟩ := pyBind_eq_ok h
    obtain ⟨rg, hrg, h⟩ := pyBind_eq_ok h
    obtain ⟨ct, hct, h⟩ := pyBind_eq_ok h
    obtain ⟨n, hn, h⟩ := pyBind_eq_ok h
    obtain ⟨items, hit, h⟩ := pyBind_eq_ok h
    obtain ⟨alist, hfl, h⟩ := pyBind_eq_ok h
    have hr : Json.obj
        [("location", .str (pyStr nm ++ ", " ++ pyStr rg ++ ", " ++ pyStr ct)),
         ("alerts_count", .num (n : Int)), ("alerts", .arr alist)] = r := by
      simpa [pure, Except.pure] using h
    refine ⟨n, alist, ?_, ?_, ?_⟩
    · rw [← hr]; rfl
    · rw [← hr]; rfl
    · exact (mapME_ok_length BotServer.alertEntry items alist hfl).trans
        (pyIterList_length alerts n items hn hit)
  · intro fs ls nm rg ct hfetch hloc hnm hrg hct halerts
    obtain ⟨ao, hgd, hgd2⟩ : ∃ ao : Json,
        pyGetD (Json.obj fs) "alerts" (.obj []) = .ok ao ∧
        pyGetD ao "alert" (.arr []) = .ok (.arr []) := by
      rcases halerts with hna | ⟨as2, hsome, hnone⟩
      · exact ⟨.obj [], by simp [pyGetD, hna], by simp [pyGetD, dictGet]⟩
      · exact ⟨.obj as2, by simp [pyGetD, hsome], by simp [pyGetD, hnone]⟩
    have hb : BotServer.get_weather_alertsBody fetch wt location = .ok (.obj
        [("location", .str (pyStr nm ++ ", " ++ pyStr rg ++ ", " ++ pyStr ct)),
         ("alerts_count", .num 0), ("alerts", .arr [])]) := by
      unfold BotServer.get_weather_alertsBody
      rw [hfetch, pyBind_ok, pyIndex_obj hloc, pyBind_ok, hgd, pyBind_ok, hgd2,
          pyBind_ok, pyIndex_obj hnm, pyBind_ok, pyIndex_obj hrg, pyBind_ok,
          pyIndex_obj hct, pyBind_ok]
      rfl
    unfold BotServer.get_weather_alerts
    rw [hb]

/-- C9 witness: the amended statement at a concrete payload with no alerts
key and at a concrete payload whose alerts object lacks the alert entry. -/
theorem c9_alerts_count_matches_witness :
    BotServer.get_weather_alerts alertsNoneFetch wtSample "Paris"
      = .obj [("location", .str "Paris, Ile de France, France"),
              ("alerts_count", .num 0), ("alerts", .arr [])] ∧
    BotServer.get_weather_alerts alertsEmptyObjFetch wtSample "Austin"
      = .obj [("location", .str "Austin, TX, USA"),
              ("alerts_count", .num 0), ("alerts", .arr [])] := by
  constructor
  · exact (c9_alerts_count_matches alertsNoneFetch wtSample "Paris").2
      _ _ _ _ _ rfl rfl rfl rfl rfl (Or.inl rfl)
  · exact (c9_alerts_count_matches alertsEmptyObjFetch wtSample "Austin").2
      _ _ _ _ _ rfl rfl rfl rfl rfl (Or.inr ⟨[], rfl, rfl⟩)

end AgenticAI
